import Mathlib

/-!
Shallow embedding of the credential and challenge-verification engine in
src/controllers/usercontrollers.go (package controllers) and its router in
the main package. Pure logic is translated to Lean functions; the effects of
a handler call (HTTP response writes, cache mutation, the detached goroutine)
are returned as explicit run records. External collaborators (gorm database,
smtp, crypto/rand) appear as explicit outcome parameters: an Option String
error for a database call, an Option Nat for the secure random draw.
-/

namespace Auth

/-- An HTTP response write performed via context.JSON: status code and body. -/
structure Response where
  status : Nat
  body : String
deriving DecidableEq, Repr

/-- The in-memory OTP cache, from the source line
var cache = make(map[string]string): a Go map from email to code, so each
key holds at most one value. -/
abbrev Cache := String → Option String

/-- The initial empty map made by make(map[string]string). -/
def emptyCache : Cache := fun _ => none

/-- Go map assignment cache[k] = v: installs v as the sole value for key k,
replacing any previous value. -/
def cacheInsert (c : Cache) (k v : String) : Cache :=
  fun x => if x = k then some v else c x

/-- OTPRequest: the JSON body bound by CheckOtp (email and otp fields). -/
structure OTPRequest where
  email : String
  otp : String

/-- models.User as the controllers see it: email, stored password hash and
the IsVerified flag. -/
structure User where
  id : Nat
  email : String
  passwordHash : String
  isVerified : Bool

/-! Challenge generator: generateOTP in usercontrollers.go. -/

/-- The lower bound of the OTP range: min := int64(10000). -/
def otpMin : Nat := 10000

/-- The upper bound named in the source: max := int64(99999). -/
def otpMax : Nat := 99999

/-- The exclusive bound the source passes to rand.Int: the big-integer
difference max - min = 89999. rand.Int(rand.Reader, n) draws uniformly from
0 to n - 1 inclusive. -/
def otpDrawBound : Nat := otpMax - otpMin

/-- The numeric OTP value computed from a draw r: randomInt.Int64() + min. -/
def otpValue (r : Nat) : Nat := r + otpMin

/-- fmt.Sprintf with verb %05d: the decimal rendering of v, left-padded with
zeros to width 5. -/
def formatOTP5 (v : Nat) : String :=
  String.mk (List.replicate (5 - (Nat.repr v).length) '0' ++ (Nat.repr v).data)

/-- generateOTP, with the outcome of the crypto/rand call made explicit:
draw = none means the secure source failed, and the function returns the
empty string together with the error (second component true); draw = some r
means rand.Int returned r, and the function returns the formatted code with
no error. Mirrors the Go (string, error) pair. -/
def generateOTP (draw : Option Nat) : String × Bool :=
  match draw with
  | none => ("", true)
  | some r => (formatOTP5 (otpValue r), false)

/-! Verification: CheckOtp in usercontrollers.go. -/

/-- The verification outcome vocabulary of the specification. -/
inductive VerifyResult where
  | NotFound
  | Mismatch
  | Matched
deriving DecidableEq, Repr

/-- Which branch of CheckOtp a request takes, read off the source: the map
lookup value, exists := cache[otp.Email]; missing entry is the NotFound
(401 invalid credentials) branch, a differing stored value is the Mismatch
(400) branch, an equal stored value is the Matched branch. -/
def verifyResult (cache : Cache) (req : OTPRequest) : VerifyResult :=
  match cache req.email with
  | none => .NotFound
  | some v => if v = req.otp then .Matched else .Mismatch

/-- The observable effects of one CheckOtp call: the response writes done by
the handler itself in order, the response writes done by the detached
goroutine, whether the goroutine runs the Updates(IsVerified: true) call,
whether that update succeeds in setting the flag, and the cache afterwards. -/
structure CheckOtpRun where
  writes : List Response
  asyncWrites : List Response
  marksVerifiedAttempted : Bool
  setsVerified : Bool
  cacheAfter : Cache

/-- CheckOtp after a successful JSON bind (a bind failure returns 400 before
any of this). Translated line by line from the source: a missing cache entry
writes 401 invalid credentials, aborts and returns; a mismatching stored
value writes the 400 error but does not return, so control falls through; the
goroutine running DB.Model Updates IsVerified true is spawned and, when the
update errors, writes a 500 response to the same context (it does not log);
the handler then writes 200 OTP Verified. The cache is never written:
no delete appears anywhere in the function. dbErr is the outcome of the
Updates call: none means it succeeds. -/
def checkOtp (cache : Cache) (req : OTPRequest) (dbErr : Option String) :
    CheckOtpRun :=
  match cache req.email with
  | none =>
    { writes := [⟨401, "invalid credentials"⟩]
      asyncWrites := []
      marksVerifiedAttempted := false
      setsVerified := false
      cacheAfter := cache }
  | some value =>
    { writes :=
        (if value = req.otp then [] else [⟨400, "Please Enter Valid OTP"⟩])
          ++ [⟨200, "OTP Verified"⟩]
      asyncWrites := match dbErr with | none => [] | some e => [⟨500, e⟩]
      marksVerifiedAttempted := true
      setsVerified := dbErr.isNone
      cacheAfter := cache }

/-! Registration: RegisterUser in usercontrollers.go. -/

/-- The observable effects of one RegisterUser call. fatal means log.Fatal
ran: the process exits, so no response is written and nothing after that
line runs; the in-memory cache dies with the process. -/
structure RegisterRun where
  responses : List Response
  emailDispatched : Bool
  cacheAfter : Cache
  fatal : Bool
  userCreated : Bool

/-- RegisterUser after a successful JSON bind (a bind failure returns 400
before any of this). Translated in source order: user.HashPassword runs
first (hashErr = some e writes 500 and returns); DB.Create runs next and its
error is only consulted later (createErr = none means the row is written);
generateOTP runs and its value is assigned into the cache BEFORE its error
is checked; on a generation error, log.Fatal terminates the process (no
message built, no mail goroutine, no response); otherwise the mail goroutine
is dispatched; only then is record.Error consulted, writing 500 with its
text on failure, else 201 with the user id and email. -/
def registerUser (cache : Cache) (email : String) (hashErr : Option String)
    (draw : Option Nat) (createErr : Option String) : RegisterRun :=
  match hashErr with
  | some e =>
    { responses := [⟨500, e⟩], emailDispatched := false, cacheAfter := cache
      fatal := false, userCreated := false }
  | none =>
    let userCreated := createErr.isNone
    let gen := generateOTP draw
    let cache1 := cacheInsert cache email gen.1
    if gen.2 then
      { responses := [], emailDispatched := false, cacheAfter := cache1
        fatal := true, userCreated := userCreated }
    else
      match createErr with
      | some e =>
        { responses := [⟨500, e⟩], emailDispatched := true
          cacheAfter := cache1, fatal := false, userCreated := userCreated }
      | none =>
        { responses := [⟨201, "userId and email"⟩], emailDispatched := true
          cacheAfter := cache1, fatal := false, userCreated := userCreated }

/-! Login: LoginController in usercontrollers.go. -/

/-- LoginController after a successful JSON bind. findResult is the outcome
of DB.Where(email).First: none means gorm reports ErrRecordNotFound, whose
message text is record not found, and the handler writes 500 with that
text and returns. passwordOk is the outcome of user.CheckPassword (the
bcrypt comparison): false writes 401 invalid credentials and returns.
signErr is the outcome of authorization.GenerateJWT, and tok the token
string it returns on success, sent with 200. -/
def loginController (findResult : Option User) (passwordOk : Bool)
    (signErr : Option String) (tok : String) : List Response :=
  match findResult with
  | none => [⟨500, "record not found"⟩]
  | some _ =>
    if passwordOk then
      match signErr with
      | some e => [⟨500, e⟩]
      | none => [⟨200, tok⟩]
    else [⟨401, "invalid credentials"⟩]

/-! Time-indexed view. The CheckOtp handler reads no clock and the cache
entry for an email is a bare code string holding no timestamp, so the
behavior of a call is independent of its arrival time. The following two
definitions make that arrival time explicit in order to state
expiry claims. -/

/-- CheckOtp as run at arrival time now: the source consults no clock, so
the run is that of checkOtp unchanged, whatever now is. -/
def checkOtpAt (_now : Nat) (cache : Cache) (req : OTPRequest)
    (dbErr : Option String) : CheckOtpRun :=
  checkOtp cache req dbErr

/-- The branch CheckOtp takes at arrival time now: independent of now. -/
def verifyResultAt (_now : Nat) (cache : Cache) (req : OTPRequest) :
    VerifyResult :=
  verifyResult cache req

/-- n back-to-back CheckOtp calls with the same request, each acting on the
cache state the previous call left behind, collecting the branch each call
takes. Since CheckOtp performs only a map read and never a map write, any
interleaving of n concurrent calls observes exactly the states this
sequential run observes. -/
def verifyRun (cache : Cache) (req : OTPRequest) : Nat → List VerifyResult
  | 0 => []
  | n + 1 =>
    verifyResult cache req ::
      verifyRun (checkOtp cache req none).cacheAfter req n

/-! Helper lemmas shared by several developments. -/

/-- CheckOtp never writes the cache: no delete or assignment to the map
appears anywhere in the function. -/
theorem checkOtp_cacheAfter (cache : Cache) (req : OTPRequest)
    (dbErr : Option String) : (checkOtp cache req dbErr).cacheAfter = cache := by
  unfold checkOtp
  cases cache req.email <;> rfl

/-- The padded rendering always has positive length. -/
theorem formatOTP5_length_pos (v : Nat) : 0 < (formatOTP5 v).length := by
  unfold formatOTP5
  rw [String.length_mk]
  rw [List.length_append, List.length_replicate]
  have hb : (Nat.repr v).length = (Nat.repr v).data.length := rfl
  omega

/-- A successful generateOTP never returns the empty string. -/
theorem generateOTP_ne_empty (r : Nat) : (generateOTP (some r)).1 ≠ "" := by
  intro h
  have hlen : 0 < (generateOTP (some r)).1.length := formatOTP5_length_pos _
  rw [h] at hlen
  exact absurd hlen (by decide)

end Auth

namespace Auth

/-- C1: the specification claims a matching Verify removes the challenge so a
second identical Verify returns NotFound. Evaluating CheckOtp at the failing
input: with the challenge 73210 active for alice, the first call takes the
Matched branch, yet the entry is still in the cache afterwards (CheckOtp
contains no delete), and the second sequential call with the same correct
code again takes the Matched branch instead of NotFound. -/
theorem C1_replay_not_prevented :
    verifyResult (cacheInsert emptyCache "alice@example.com" "73210")
      ⟨"alice@example.com", "73210"⟩ = .Matched ∧
    (checkOtp (cacheInsert emptyCache "alice@example.com" "73210")
      ⟨"alice@example.com", "73210"⟩ none).cacheAfter "alice@example.com"
      = some "73210" ∧
    verifyResult
      (checkOtp (cacheInsert emptyCache "alice@example.com" "73210")
        ⟨"alice@example.com", "73210"⟩ none).cacheAfter
      ⟨"alice@example.com", "73210"⟩ = .Matched := by
  refine ⟨by decide, by decide, by decide⟩

/-- C2: the specification claims a mismatching code yields only the Mismatch
result, leaving the verified flag unset. Evaluating CheckOtp at the failing
input: with stored code 73210 and submitted code 00000, the handler writes
the 400 mismatch error but control falls through (the return is missing), so
it still spawns the IsVerified update, which succeeds and sets the verified
flag, and additionally writes 200 OTP Verified. -/
theorem C2_mismatch_still_marks_verified :
    (checkOtp (cacheInsert emptyCache "alice@example.com" "73210")
      ⟨"alice@example.com", "00000"⟩ none).writes
      = [⟨400, "Please Enter Valid OTP"⟩, ⟨200, "OTP Verified"⟩] ∧
    (checkOtp (cacheInsert emptyCache "alice@example.com" "73210")
      ⟨"alice@example.com", "00000"⟩ none).marksVerifiedAttempted = true ∧
    (checkOtp (cacheInsert emptyCache "alice@example.com" "73210")
      ⟨"alice@example.com", "00000"⟩ none).setsVerified = true := by
  refine ⟨by decide, by decide, by decide⟩

/-- C3 counterexample: the claim states a Verify arriving after the expiry
window returns NotFound. A call arriving one billion time units after the
challenge for alice was issued — past any minutes-scale validity window —
still returns Matched with the correct code, because the stored entry is a
bare code string carrying no timestamp and the handler consults no clock. -/
theorem C3_expired_verify_still_matches :
    verifyResultAt 1000000000
      (cacheInsert emptyCache "alice@example.com" "73210")
      ⟨"alice@example.com", "73210"⟩ = .Matched ∧
    VerifyResult.Matched ≠ VerifyResult.NotFound := by
  refine ⟨by decide, by decide⟩

/-- C3 amended: challenges carry no expiry. Whenever the cache holds a code
for an email, a Verify call submitting that code returns Matched at every
arrival time: there is no time after which the result becomes NotFound. -/
theorem C3_no_expiry_correct_code_always_matches (now : Nat) (cache : Cache)
    (email code : String) (h : cache email = some code) :
    verifyResultAt now cache ⟨email, code⟩ = .Matched := by
  simp [verifyResultAt, verifyResult, h]

/-- C3 witness: the amended theorem applied to the concrete scenario. -/
theorem C3_no_expiry_witness :
    (cacheInsert emptyCache "alice@example.com" "73210") "alice@example.com"
      = some "73210" ∧
    verifyResultAt 1000000000
      (cacheInsert emptyCache "alice@example.com" "73210")
      ⟨"alice@example.com", "73210"⟩ = .Matched :=
  ⟨by decide,
   C3_no_expiry_correct_code_always_matches 1000000000
     (cacheInsert emptyCache "alice@example.com" "73210")
     "alice@example.com" "73210" (by decide)⟩

/-- C4 counterexample: the claim states that of N concurrent Verify calls
with the same correct code exactly one reports Matched. Two back-to-back
calls — one serializable interleaving of two concurrent calls — both report
Matched, so the Matched count is 2, not 1. -/
theorem C4_two_verifies_both_match :
    verifyRun (cacheInsert emptyCache "alice@example.com" "73210")
      ⟨"alice@example.com", "73210"⟩ 2 = [.Matched, .Matched] ∧
    (verifyRun (cacheInsert emptyCache "alice@example.com" "73210")
      ⟨"alice@example.com", "73210"⟩ 2).count .Matched ≠ 1 := by
  refine ⟨by decide, by decide⟩

/-- C4 amended: a matching Verify does not consume the challenge and the
verify path never writes the map, so every one of n calls with the still
installed correct code reports Matched — under any interleaving, since each
call only reads the shared map. -/
theorem C4_all_concurrent_verifies_match (cache : Cache) (req : OTPRequest)
    (n : Nat) (h : cache req.email = some req.otp) :
    verifyRun cache req n = List.replicate n .Matched := by
  induction n with
  | zero => rfl
  | succ n ih =>
    show verifyResult cache req ::
        verifyRun (checkOtp cache req none).cacheAfter req n
      = List.replicate (n + 1) .Matched
    rw [checkOtp_cacheAfter, ih]
    simp [verifyResult, h, List.replicate_succ]

/-- C4 witness: the amended theorem applied to the concrete scenario. -/
theorem C4_all_match_witness :
    (cacheInsert emptyCache "alice@example.com" "73210") "alice@example.com"
      = some "73210" ∧
    verifyRun (cacheInsert emptyCache "alice@example.com" "73210")
      ⟨"alice@example.com", "73210"⟩ 3 = List.replicate 3 .Matched :=
  ⟨by decide,
   C4_all_concurrent_verifies_match
     (cacheInsert emptyCache "alice@example.com" "73210")
     ⟨"alice@example.com", "73210"⟩ 3 (by decide)⟩

/-- C5 counterexample: the claim states the two members of each caller
mistake pair get the same response. In CheckOtp, a missing challenge answers
401 invalid credentials while a wrong code answers 400 Please Enter Valid
OTP; in LoginController, a missing account answers 500 with the database
error text while a wrong password answers 401 invalid credentials — the
responses differ in both pairs, so the cases are distinguishable. -/
theorem C5_failure_responses_distinguishable :
    (checkOtp emptyCache ⟨"alice@example.com", "73210"⟩ none).writes.head?
      ≠ (checkOtp (cacheInsert emptyCache "alice@example.com" "73210")
          ⟨"alice@example.com", "00000"⟩ none).writes.head? ∧
    loginController none true none "tok"
      ≠ loginController (some ⟨1, "alice@example.com", "hash", false⟩) false
          none "tok" := by
  refine ⟨by decide, by decide⟩

/-- C5 amended: the caller-visible responses differ between the members of
each pair. CheckOtp writes exactly 401 invalid credentials when no challenge
is active, and 400 Please Enter Valid OTP (followed by the fall-through 200)
when the code is wrong; LoginController writes exactly 500 with the record
not found text when no account exists, and 401 invalid credentials when the
password is wrong. -/
theorem C5_distinct_failure_responses :
    (∀ cache req dbErr, cache req.email = none →
      (checkOtp cache req dbErr).writes = [⟨401, "invalid credentials"⟩]) ∧
    (∀ cache req dbErr v, cache req.email = some v → v ≠ req.otp →
      (checkOtp cache req dbErr).writes
        = [⟨400, "Please Enter Valid OTP"⟩, ⟨200, "OTP Verified"⟩]) ∧
    (∀ passwordOk signErr tok, loginController none passwordOk signErr tok
      = [⟨500, "record not found"⟩]) ∧
    (∀ u signErr tok, loginController (some u) false signErr tok
      = [⟨401, "invalid credentials"⟩]) := by
  refine ⟨?_, ?_, ?_, ?_⟩
  · intro cache req dbErr h
    simp [checkOtp, h]
  · intro cache req dbErr v h hv
    simp [checkOtp, h, hv]
  · intro passwordOk signErr tok
    rfl
  · intro u signErr tok
    simp [loginController]

/-- C5 witness: the amended theorem applied at concrete inputs. -/
theorem C5_distinct_failure_responses_witness :
    (checkOtp emptyCache ⟨"alice@example.com", "73210"⟩ none).writes
      = [⟨401, "invalid credentials"⟩] ∧
    (checkOtp (cacheInsert emptyCache "alice@example.com" "73210")
      ⟨"alice@example.com", "00000"⟩ none).writes
      = [⟨400, "Please Enter Valid OTP"⟩, ⟨200, "OTP Verified"⟩] ∧
    loginController none true none "tok" = [⟨500, "record not found"⟩] ∧
    loginController (some ⟨1, "alice@example.com", "hash", false⟩) false none
      "tok" = [⟨401, "invalid credentials"⟩] :=
  ⟨C5_distinct_failure_responses.1 emptyCache ⟨"alice@example.com", "73210"⟩
     none rfl,
   C5_distinct_failure_responses.2.1
     (cacheInsert emptyCache "alice@example.com" "73210")
     ⟨"alice@example.com", "00000"⟩ none "73210" (by decide) (by decide),
   C5_distinct_failure_responses.2.2.1 true none "tok",
   C5_distinct_failure_responses.2.2.2
     ⟨1, "alice@example.com", "hash", false⟩ none "tok"⟩

/-- C6: the claim states the generated value lies in 10000 to 99999 with
every value in that range attainable. The source passes max - min = 89999 to
rand.Int, whose result is strictly below its bound, so the value is
r + 10000 with r at most 89998: it lies in 10000 to 99998, is rendered as a
five-character string, and is never 99999 — contradicting the declared
range in the claim and in the comments of the source. -/
theorem C6_otp_range_off_by_one (r : Nat) (h : r < otpDrawBound) :
    otpMin ≤ otpValue r ∧ otpValue r ≤ 99998 ∧ otpValue r ≠ otpMax ∧
    (generateOTP (some r)).1.length = 5 := by
  have hb : r < 89999 := h
  refine ⟨?_, ?_, ?_, ?_⟩
  · simp [otpValue, otpMin]
  · simp only [otpValue, otpMin]
    omega
  · simp only [otpValue, otpMin, otpMax]
    omega
  · show (formatOTP5 (otpValue r)).length = 5
    have hv : otpValue r < 10 ^ 5 := by
      simp only [otpValue, otpMin]
      omega
    have hr : (Nat.repr (otpValue r)).length ≤ 5 :=
      Nat.repr_length (otpValue r) 5 (by omega) hv
    unfold formatOTP5
    rw [String.length_mk, List.length_append, List.length_replicate]
    have hbd : (Nat.repr (otpValue r)).length
        = (Nat.repr (otpValue r)).data.length := rfl
    omega

/-- C6 witness: the range theorem applied at the concrete draw 0. -/
theorem C6_otp_range_off_by_one_witness :
    (0 : Nat) < otpDrawBound ∧
    (otpMin ≤ otpValue 0 ∧ otpValue 0 ≤ 99998 ∧ otpValue 0 ≠ otpMax ∧
      (generateOTP (some 0)).1.length = 5) :=
  ⟨by decide, C6_otp_range_off_by_one 0 (by decide)⟩

/-- C7: a Go map holds one value per key, so assigning a fresh code installs
it as the sole active challenge for the email, superseding the old one; a
subsequent Verify submitting the superseded old code (distinct from the
fresh one, as a freshly drawn code is) takes the Mismatch branch and never
the Matched branch. -/
theorem C7_reissue_supersedes (cache : Cache) (email oldCode newCode : String)
    (h : oldCode ≠ newCode) :
    (cacheInsert cache email newCode) email = some newCode ∧
    verifyResult (cacheInsert cache email newCode) ⟨email, oldCode⟩
      = .Mismatch ∧
    verifyResult (cacheInsert cache email newCode) ⟨email, oldCode⟩
      ≠ .Matched := by
  have hlook : (cacheInsert cache email newCode) email = some newCode := by
    simp [cacheInsert]
  refine ⟨hlook, ?_, ?_⟩
  · simp [verifyResult, hlook, Ne.symm h]
  · simp [verifyResult, hlook, Ne.symm h]

/-- C7 witness: the supersession theorem applied at concrete codes. -/
theorem C7_reissue_supersedes_witness :
    ("73210" : String) ≠ "54321" ∧
    ((cacheInsert (cacheInsert emptyCache "alice@example.com" "73210")
        "alice@example.com" "54321") "alice@example.com" = some "54321" ∧
      verifyResult
        (cacheInsert (cacheInsert emptyCache "alice@example.com" "73210")
          "alice@example.com" "54321")
        ⟨"alice@example.com", "73210"⟩ = .Mismatch ∧
      verifyResult
        (cacheInsert (cacheInsert emptyCache "alice@example.com" "73210")
          "alice@example.com" "54321")
        ⟨"alice@example.com", "73210"⟩ ≠ .Matched) :=
  ⟨by decide,
   C7_reissue_supersedes (cacheInsert emptyCache "alice@example.com" "73210")
     "alice@example.com" "73210" "54321" (by decide)⟩

/-- C8: when the secure random draw fails, generateOTP returns the empty
string with an error and RegisterUser reaches log.Fatal: the process
terminates, so no response is written, no mail is dispatched, and the
registration does not proceed. The value assigned into the cache just
before the error check is the empty string, which no successful run of the
generator ever produces — no code from any weaker randomness source exists
or is delivered. -/
theorem C8_entropy_failure_is_fatal (cache : Cache) (email : String)
    (createErr : Option String) :
    (registerUser cache email none none createErr).fatal = true ∧
    (registerUser cache email none none createErr).emailDispatched = false ∧
    (registerUser cache email none none createErr).responses = [] ∧
    (registerUser cache email none none createErr).cacheAfter email
      = some "" ∧
    (∀ r : Nat, (generateOTP (some r)).1 ≠ "") := by
  refine ⟨rfl, rfl, rfl, ?_, generateOTP_ne_empty⟩
  simp [registerUser, generateOTP, cacheInsert]

/-- C9 counterexample: the claim states a failure of the asynchronous
IsVerified update is logged only and never alters the response. On a
matching call whose update fails, the detached goroutine writes a 500
response with the error text to the same response context — it does not
log — so its write set is not empty. -/
theorem C9_async_update_failure_writes_response :
    (checkOtp (cacheInsert emptyCache "alice@example.com" "73210")
      ⟨"alice@example.com", "73210"⟩ (some "connection refused")).asyncWrites
      = [⟨500, "connection refused"⟩] ∧
    (checkOtp (cacheInsert emptyCache "alice@example.com" "73210")
      ⟨"alice@example.com", "73210"⟩ (some "connection refused")).asyncWrites
      ≠ [] := by
  refine ⟨by decide, by decide⟩

/-- C9 amended: on a matching call the handler writes the 200 success
response whatever the update outcome is, but a failing update is not merely
logged: the detached goroutine writes a 500 response with the error text to
the same response context, and writes nothing only when the update
succeeds. -/
theorem C9_success_response_and_async_write (cache : Cache)
    (req : OTPRequest) (dbErr : Option String)
    (h : cache req.email = some req.otp) :
    (checkOtp cache req dbErr).writes = [⟨200, "OTP Verified"⟩] ∧
    (checkOtp cache req dbErr).asyncWrites
      = (match dbErr with | none => [] | some e => [⟨500, e⟩]) := by
  constructor
  · simp [checkOtp, h]
  · simp [checkOtp, h]

/-- C9 witness: the amended theorem applied at a concrete failing update. -/
theorem C9_success_response_witness :
    (checkOtp (cacheInsert emptyCache "alice@example.com" "73210")
      ⟨"alice@example.com", "73210"⟩ (some "connection refused")).writes
      = [⟨200, "OTP Verified"⟩] ∧
    (checkOtp (cacheInsert emptyCache "alice@example.com" "73210")
      ⟨"alice@example.com", "73210"⟩ (some "connection refused")).asyncWrites
      = (match some "connection refused" with
          | none => ([] : List Response) | some e => [⟨500, e⟩]) :=
  C9_success_response_and_async_write
    (cacheInsert emptyCache "alice@example.com" "73210")
    ⟨"alice@example.com", "73210"⟩ (some "connection refused") (by decide)

/-- C10: RegisterUser assigns the generated code into the cache and
dispatches the mail goroutine before consulting record.Error, so when
DB.Create fails the caller receives the 500 internal error, yet the active
challenge for the email is installed in the cache and the code has been
handed to the notification goroutine; no user row was created. -/
theorem C10_create_failure_leaves_challenge (cache : Cache) (email : String)
    (r : Nat) (msg : String) :
    (registerUser cache email none (some r) (some msg)).responses
      = [⟨500, msg⟩] ∧
    (registerUser cache email none (some r) (some msg)).cacheAfter email
      = some (formatOTP5 (otpValue r)) ∧
    (registerUser cache email none (some r) (some msg)).emailDispatched
      = true ∧
    (registerUser cache email none (some r) (some msg)).userCreated
      = false := by
  refine ⟨rfl, ?_, rfl, rfl⟩
  simp [registerUser, generateOTP, cacheInsert]

end Auth
